import Mathlib

/-!
Verification development for the single-sieve repository (src/single-sieve.py
and src/listener.py).  The Python code is shallowly embedded: pure helpers
become Lean functions over `List Char` / plain structures, the stateful
reconciliation loop becomes explicit state passing with a remote-call log and
a failure oracle, and exceptions become `Except` values threaded through the
per-artist sequence.
-/

namespace SingleSieve

/-! ## Normaliser (src/single-sieve.py, `normalise`, lines 89-109)

Python's `re` operations are embedded character-by-character:
`re.sub(r"\([^)]*\)", "", s)` removes, left to right, every maximal group
starting at a `(` that has a matching `)` later in the string (up to the
first such `)`); an unmatched `(` is kept.  `\s` is modelled as the ASCII
whitespace characters. -/

def isPyWs (c : Char) : Bool :=
  c = ' ' || c = '\t' || c = '\n' || c = '\x0d' || c = '\x0b' || c = '\x0c'

/-- ASCII lowercasing, as `str.lower()` acts on ASCII titles. -/
def asciiLower (c : Char) : Char :=
  if 'A' ≤ c && c ≤ 'Z' then Char.ofNat (c.toNat + 32) else c

/-- Embedding of `s.replace("&", "and")`. -/
def replaceAmp : List Char → List Char
  | [] => []
  | c :: cs => if c = '&' then 'a' :: 'n' :: 'd' :: replaceAmp cs else c :: replaceAmp cs

/-- The suffix after the first occurrence of `c` (whole list consumed if absent). -/
def afterFirst (c : Char) : List Char → List Char
  | [] => []
  | x :: xs => if x = c then xs else afterFirst c xs

/-- Fuel-driven core of `re.sub(r"\(o[^c]*c\)", "", s)`-style group stripping.
The fuel is the input length; every step consumes at least one character, so
the fuel never runs out on `stripGroup`'s call. -/
def stripGroupAux (o c : Char) : Nat → List Char → List Char
  | 0, l => l
  | _ + 1, [] => []
  | n + 1, x :: xs =>
    if x = o && xs.contains c then stripGroupAux o c n (afterFirst c xs)
    else x :: stripGroupAux o c n xs

/-- Embedding of `re.sub(r"\([^)]*\)", "", s)` (with `o := '('`, `c := ')'`), and the
bracket variant with `o := '['`, `c := ']'`. -/
def stripGroup (o c : Char) (l : List Char) : List Char :=
  stripGroupAux o c l.length l

/-- Embedding of `re.sub(r"\s+", " ", s)`: each maximal whitespace run becomes one space.
The boolean records whether the previous character was inside a run. -/
def collapseWsAux : Bool → List Char → List Char
  | _, [] => []
  | inWs, c :: cs =>
    if isPyWs c then
      if inWs then collapseWsAux true cs else ' ' :: collapseWsAux true cs
    else c :: collapseWsAux false cs

def collapseWs (l : List Char) : List Char :=
  collapseWsAux false l

/-- Embedding of `str.strip()`. -/
def pyStrip (l : List Char) : List Char :=
  ((l.dropWhile isPyWs).reverse.dropWhile isPyWs).reverse

/-- The normalisation rule flags from the `normalisation` config section. -/
structure Rules where
  lowercase : Bool
  strip_parentheses : Bool
  strip_brackets : Bool
  remove_punctuation : Bool
  collapse_whitespace : Bool
deriving DecidableEq

/-- Embedding of `normalise(title, rules)` from src/single-sieve.py lines 89-109, translated
step for step; note that the punctuation class is `[^a-z0-9\s]`, written here
as the kept-character predicate. -/
def normalise (title : List Char) (rules : Rules) : List Char :=
  let s := title
  let s := if rules.lowercase then s.map asciiLower else s
  let s := replaceAmp s
  let s := if rules.strip_parentheses then stripGroup '(' ')' s else s
  let s := if rules.strip_brackets then stripGroup '[' ']' s else s
  let s := if rules.remove_punctuation then
    s.filter (fun ch => ('a' ≤ ch && ch ≤ 'z') || ('0' ≤ ch && ch ≤ '9') || isPyWs ch)
  else s
  let s := if rules.collapse_whitespace then collapseWs s else s
  pyStrip s

/-! Named step functions, written independently of `normalise`, used to state
the pipeline-order property of the spec. -/

def lowerStep (l : List Char) : List Char := l.map asciiLower

def ampStepSpec (l : List Char) : List Char :=
  l.foldr (fun ch acc => (if ch = '&' then ['a', 'n', 'd'] else [ch]) ++ acc) []

def punctStep (l : List Char) : List Char :=
  l.filter (fun ch => ('a' ≤ ch && ch ≤ 'z') || ('0' ≤ ch && ch ≤ '9') || isPyWs ch)

def condApp (flag : Bool) (f : List Char → List Char) (l : List Char) : List Char :=
  if flag then f l else l

end SingleSieve

namespace Listener

/-! ## Ingestion queue and worker (src/listener.py)

The module-level mutable state (`queue`, `worker_running`) is modelled as an
explicit state value.  The Python `queue` is a `set`; it is embedded as a
`List String` with set-like membership checks, and `set.pop()` (an arbitrary
element) is modelled as taking the head.  All mutations in the source occur
inside `queue_lock`, so the state-passing functions correspond to the atomic
regions of the code. -/

structure ListenerState where
  queue : List String
  worker_running : Bool
deriving DecidableEq

/-- The atomic claim step at the top of `worker_loop` (src/listener.py lines
17-23): with the lock held, an empty queue clears the running flag and stops;
otherwise one id is removed from the set and processed outside the lock. -/
def worker_claim (st : ListenerState) : Option String × ListenerState :=
  match st.queue with
  | [] => (none, { st with worker_running := false })
  | m :: rest => (some m, { st with queue := rest })

/-- The queue mutation inside `lidarr_webhook`'s lock (src/listener.py lines
64-69): add the id only if absent. -/
def enqueue (mbid : String) (st : ListenerState) : ListenerState :=
  if st.queue.contains mbid then st else { st with queue := mbid :: st.queue }

/-- Embedding of `ensure_worker` (src/listener.py lines 36-45): check-and-set of the
running flag; the thread spawn itself is outside the embedded state. -/
def ensure_worker (st : ListenerState) : ListenerState :=
  if st.worker_running then st else { st with worker_running := true }

structure WebhookArtist where
  mbId : Option String
  name : Option String
deriving DecidableEq

structure WebhookPayload where
  eventType : String
  artist : Option WebhookArtist
deriving DecidableEq

inductive WebhookStatus
  | queued
  | ignored
  | noMbid
deriving DecidableEq

/-- Embedding of `lidarr_webhook` (src/listener.py lines 48-73); in it,
`payload.get("artist", \x7b\x7d)`
is the `getD` default; `if not mbid` treats both a missing `mbId` and the
empty string as absent. -/
def lidarr_webhook (payload : WebhookPayload) (st : ListenerState) :
    WebhookStatus × ListenerState :=
  if payload.eventType ≠ "ArtistAdd" then (.ignored, st)
  else
    let ar := payload.artist.getD ⟨none, none⟩
    let mbid := ar.mbId.getD ""
    if mbid = "" then (.noMbid, st)
    else (.queued, ensure_worker (enqueue mbid st))

end Listener

namespace SingleSieve

/-! ## Data model and remote environment (src/single-sieve.py)

Remote JSON objects become structures; optional JSON fields become `Option`.
Remote HTTP calls are logged in order into `RunState.calls`; a failure oracle
`Env.fails` (indexed by the running call count) decides which calls raise
`requests` errors (`raise_for_status`), and `Env.cmdFails` decides whether the
polled RefreshArtist command ends in status `failed` (the `RuntimeError` of
`wait_for_command`).  The remote store's view of the artist's `monitored` flag
and profile id is tracked in `RunState`; a successful `PUT /artist` updates
it, a failed call does not reach the store. -/

structure Artist where
  id : Nat
  artistName : String
  monitored : Bool
  metadataProfileId : Nat
  foreignArtistId : String
deriving DecidableEq

structure Album where
  id : Nat
  title : String
  albumType : String
  monitored : Bool
deriving DecidableEq

structure Track where
  albumId : Nat
  title : Option String
  recordingId : Option String
deriving DecidableEq

inductive RCall
  | putArtist (a : Artist)
  | postCommand (nm : String) (artistId : Nat)
  | getCommand (cmdId : Nat)
  | getTracks (artistId : Nat)
  | getAlbums (artistId : Nat)
  | getAlbum (albumId : Nat)
  | putAlbum (a : Album)
deriving DecidableEq

/-- A call that mutates the remote store (`PUT` or `POST`). -/
def isWriteCall : RCall → Bool
  | .putArtist _ => true
  | .postCommand _ _ => true
  | .putAlbum _ => true
  | _ => false

inductive RErr
  | requestFailed
  | commandFailed
deriving DecidableEq

structure RunState where
  calls : List RCall
  nCalls : Nat
  remoteMonitored : Bool
  remoteProfileId : Nat
deriving DecidableEq

structure Env where
  fails : Nat → Bool
  cmdFails : Bool
  tracks : List Track
  albums : List Album

/-- Effect of a successful call on the remote store's artist record. -/
def applyCall : RCall → RunState → RunState
  | .putArtist a, st =>
    { st with remoteMonitored := a.monitored, remoteProfileId := a.metadataProfileId }
  | _, st => st

/-- One remote HTTP round trip: the call is logged (it was attempted), then
either `raise_for_status` raises or the call takes effect. -/
def rcall (env : Env) (c : RCall) (st : RunState) : Except RErr Unit × RunState :=
  let logged := { st with calls := st.calls ++ [c], nCalls := st.nCalls + 1 }
  if env.fails st.nCalls then (.error .requestFailed, logged)
  else (.ok (), applyCall c logged)

/-- Embedding of `set_artist_monitored` (src/single-sieve.py lines 161-177).  The middle
component of the result is the caller's view of the artist object after the
call: the Python dict is mutated in place before the PUT, so on a raised PUT
the caller still sees the toggled flag.  On success the returned object is the
server's echo of the payload. -/
def set_artist_monitored (env : Env) (artist_obj : Artist) (monitored : Bool)
    (dry_run : Bool) (st : RunState) : Except RErr Artist × Artist × RunState :=
  if artist_obj.monitored = monitored then (.ok artist_obj, artist_obj, st)
  else
    let a' := { artist_obj with monitored := monitored }
    if dry_run then (.ok a', a', st)
    else
      match rcall env (.putArtist a') st with
      | (.ok _, st') => (.ok a', a', st')
      | (.error e, st') => (.error e, a', st')

/-! ## Duplicate suppressor classification (src/single-sieve.py lines 329-401) -/

def titleOf (t : Track) : String := t.title.getD ""

/-- The witness set of normalised titles of tracks on monitored non-single
albums (`seen_titles_elsewhere`); `if title:` skips absent and empty titles. -/
def seen_titles (rules : Rules) (monIds : List Nat) (tracks : List Track) :
    List (List Char) :=
  tracks.filterMap fun t =>
    if monIds.contains t.albumId && titleOf t ≠ "" then
      some (normalise (titleOf t).data rules)
    else none

/-- Embedding of `seen_recordings_elsewhere`; `if recording_id:` skips `None` and `""`. -/
def seen_recordings (monIds : List Nat) (tracks : List Track) : List String :=
  tracks.filterMap fun t =>
    if monIds.contains t.albumId && t.recordingId.getD "" ≠ "" then
      some (t.recordingId.getD "")
    else none

/-- The per-track match test of the suppression loop: normalised-title hit, or
a present `recordingId` found among seen recordings. -/
def trackMatches (rules : Rules) (sT : List (List Char)) (sR : List String)
    (t : Track) : Bool :=
  sT.contains (normalise (titleOf t).data rules) ||
    (t.recordingId.isSome && sR.contains (t.recordingId.getD ""))

/-- The `missing` list built for one single: the loop body skips tracks with a
falsy title (`if not title: continue`) and records the normalised title of
every unmatched remaining track. -/
def missing_of (rules : Rules) (sT : List (List Char)) (sR : List String)
    (ts : List Track) : List String :=
  ts.filterMap fun t =>
    if titleOf t = "" then none
    else if trackMatches rules sT sR t then none
    else some (String.mk (normalise (titleOf t).data rules))

inductive Verdict
  | keptNoTracks
  | suppressed
  | keptMissing (ms : List String)
deriving DecidableEq

/-- The decision taken for one single album, given its visible tracks. -/
def single_verdict (rules : Rules) (sT : List (List Char)) (sR : List String)
    (ts : List Track) : Verdict :=
  if ts = [] then .keptNoTracks
  else if missing_of rules sT sR ts = [] then .suppressed
  else .keptMissing (missing_of rules sT sR ts)

end SingleSieve

namespace SingleSieve

/-! ## Artist reconciler (src/single-sieve.py, `main`, lines 262-448)

The per-artist `try` body is a sequence of steps over a local state `LState`
holding the locals of the loop body: the `artist` snapshot object (Python
mutates this dict in place, so a raised PUT leaves the mutation visible), the
fetched `albums` list, the suppressed/kept/diagnostic accumulators, and the
remote-call state.  Each step returns `Except RErr Unit`; an `.error` is the
exception propagating to the `finally` safety net. -/

structure Behaviour where
  dry_run : Bool
  apply_profile : Bool
  suppress_duplicates : Bool
  skip_unmonitored : Bool
  search_monitored : Bool
deriving DecidableEq

structure Cfg where
  target_profile_id : Nat
  profiles : List (Nat × String)
  ignore_profiles : List String
  rules : Rules
deriving DecidableEq

structure SuppAcc where
  suppressed : List String
  kept : List String
  misses : List (String × List String)
deriving DecidableEq

structure LState where
  artist : Artist
  albumsMem : List Album
  acc : SuppAcc
  rs : RunState
deriving DecidableEq

def rcallL (env : Env) (c : RCall) (ls : LState) : Except RErr Unit × LState :=
  match rcall env c ls.rs with
  | (r, rs') => (r, { ls with rs := rs' })

/-- Embedding of `artist = set_artist_monitored(cfg, artist, monitored, dry_run=dry_run)` as
a step over the loop locals. -/
def setMonitoredStep (env : Env) (monitored dry : Bool) (ls : LState) :
    Except RErr Unit × LState :=
  match set_artist_monitored env ls.artist monitored dry ls.rs with
  | (.ok a, _, rs') => (.ok (), { ls with artist := a, rs := rs' })
  | (.error e, a', rs') => (.error e, { ls with artist := a', rs := rs' })

/-- The profile-apply write (lines 301-308): the snapshot's profile id is set
before the PUT (also in dry-run), so a raised PUT leaves it set. -/
def profileStep (env : Env) (target : Nat) (dry : Bool) (ls : LState) :
    Except RErr Unit × LState :=
  let a' := { ls.artist with metadataProfileId := target }
  if dry then (.ok (), { ls with artist := a' })
  else
    match rcall env (.putArtist a') ls.rs with
    | (r, rs') => (r, { ls with artist := a', rs := rs' })

/-- Embedding of `refresh_artist_and_wait` (lines 130-143): POST the command, then poll it;
`wait_for_command` raises on a `failed` status.  The polling loop is collapsed
to one status read whose transport may also fail. -/
def refreshStep (env : Env) (aid : Nat) (ls : LState) : Except RErr Unit × LState :=
  match rcallL env (.postCommand "RefreshArtist" aid) ls with
  | (.error e, ls) => (.error e, ls)
  | (.ok _, ls) =>
    match rcallL env (.getCommand 0) ls with
    | (.error e, ls) => (.error e, ls)
    | (.ok _, ls) => if env.cmdFails then (.error .commandFailed, ls) else (.ok (), ls)

/-- The suppression loop over singles (lines 361-401), interleaving the
classification with the unmonitor effect (`GET album/{id}` then `PUT album`)
exactly as the source does. -/
def suppress_loop (env : Env) (b : Behaviour) (rules : Rules)
    (sT : List (List Char)) (sR : List String) (tracks : List Track) :
    List Album → LState → Except RErr Unit × LState
  | [], ls => (.ok (), ls)
  | s :: rest, ls =>
    match single_verdict rules sT sR (tracks.filter (fun t => t.albumId == s.id)) with
    | .keptNoTracks =>
      let acc' : SuppAcc :=
        ⟨ls.acc.suppressed, ls.acc.kept ++ [s.title],
          ls.acc.misses ++ [(s.title, ["<no tracks visible>"])]⟩
      suppress_loop env b rules sT sR tracks rest { ls with acc := acc' }
    | .keptMissing ms =>
      let acc' : SuppAcc :=
        ⟨ls.acc.suppressed, ls.acc.kept ++ [s.title], ls.acc.misses ++ [(s.title, ms)]⟩
      suppress_loop env b rules sT sR tracks rest { ls with acc := acc' }
    | .suppressed =>
      let ls' := { ls with acc :=
        { ls.acc with suppressed := ls.acc.suppressed ++ [s.title] } }
      if b.suppress_duplicates then
        if b.dry_run then suppress_loop env b rules sT sR tracks rest ls'
        else
          match rcallL env (.getAlbum s.id) ls' with
          | (.error e, ls') => (.error e, ls')
          | (.ok _, ls') =>
            match rcallL env
                (.putAlbum { ((env.albums.find? (fun al => al.id == s.id)).getD s)
                  with monitored := false }) ls' with
            | (.error e, ls') => (.error e, ls')
            | (.ok _, ls') => suppress_loop env b rules sT sR tracks rest ls'
      else suppress_loop env b rules sT sR tracks rest ls'

/-- Sequencing of two fallible steps: a raised exception skips the rest of
the `try` body (but the mutated locals survive into the `finally`). -/
def seqE (step k : LState → Except RErr Unit × LState) (ls : LState) :
    Except RErr Unit × LState :=
  match step ls with
  | (.error e, ls') => (.error e, ls')
  | (.ok _, ls') => k ls'

/-- A step guarded by a condition on the current locals (`if cond: step`). -/
def condStepOn (p : LState → Bool) (step : LState → Except RErr Unit × LState)
    (ls : LState) : Except RErr Unit × LState :=
  if p ls then step ls else (.ok (), ls)

/-- Embedding of `singles = [a for a in albums if a.get("albumType") == "Single"]`. -/
def singlesOf (albums : List Album) : List Album :=
  albums.filter (fun al => al.albumType == "Single")

/-- Embedding of `monitored_non_single_release_ids`. -/
def monIdsOf (albums : List Album) : List Nat :=
  (albums.filter (fun al => al.albumType != "Single" && al.monitored)).map
    (fun al => al.id)

/-- The `try` body of the per-artist loop (lines 294-430).  `aid` is the
`artist_id` captured before the first reassignment of `artist`; `wasMon` and
`needsChange` are computed once from the entry snapshot.  The sequence is:
temporary unmonitor, profile apply, refresh-and-wait (skipped in dry run),
the `GET /track` and `GET /album` fetches, the suppression loop, then the
re-monitor with its optional fire-and-forget search. -/
def try_body (env : Env) (b : Behaviour) (cfg : Cfg) (aid : Nat)
    (wasMon needsChange : Bool) : LState → Except RErr Unit × LState :=
  seqE (condStepOn (fun _ => wasMon && needsChange) (setMonitoredStep env false b.dry_run))
    (seqE (condStepOn
        (fun ls => b.apply_profile && ls.artist.metadataProfileId != cfg.target_profile_id)
        (profileStep env cfg.target_profile_id b.dry_run))
      (seqE (condStepOn (fun _ => needsChange && !b.dry_run) (refreshStep env aid))
        (seqE (rcallL env (.getTracks aid))
          (seqE (rcallL env (.getAlbums aid))
            (seqE (fun ls =>
                suppress_loop env b cfg.rules
                  (seen_titles cfg.rules (monIdsOf env.albums) env.tracks)
                  (seen_recordings (monIdsOf env.albums) env.tracks)
                  env.tracks (singlesOf env.albums)
                  { ls with albumsMem := env.albums })
              (condStepOn (fun _ => wasMon && needsChange)
                (seqE (setMonitoredStep env true b.dry_run)
                  (condStepOn (fun _ => b.search_monitored && !b.dry_run)
                    (rcallL env (.postCommand "ArtistSearch" aid))))))))))

/-- The `finally` safety net (lines 434-444): outside dry runs, when the local
snapshot of an originally monitored artist shows `monitored == false`, force a
restoring PUT; its own failure is swallowed.  The snapshot flag is set before
the PUT, so the local object shows `true` even if the restore raises. -/
def safety_net (env : Env) (b : Behaviour) (wasMon : Bool) (ls : LState) : LState :=
  if wasMon && !b.dry_run then
    if !ls.artist.monitored then
      let a' := { ls.artist with monitored := true }
      match rcall env (.putArtist a') ls.rs with
      | (_, rs') => { ls with artist := a', rs := rs' }
    else ls
  else ls

structure Outcome where
  artist : Artist
  albumsMem : List Album
  acc : SuppAcc
  st : RunState
  err : Option RErr
  skipped : Bool
deriving DecidableEq

/-- One iteration of the artist loop (lines 262-448): the skip checks, then
the `try` body, then the `finally` safety net; an exception from the body
survives the `finally` and is reported in `err` (there is no `except`
clause). -/
def process_artist (env : Env) (b : Behaviour) (cfg : Cfg) (artist0 : Artist)
    (st0 : RunState) : Outcome :=
  let wasMon := artist0.monitored
  let currentProfile :=
    ((cfg.profiles.find? (fun p => p.1 == artist0.metadataProfileId)).map
      (fun p => p.2)).getD "unknown"
  let needsChange := artist0.metadataProfileId != cfg.target_profile_id
  if b.skip_unmonitored && !wasMon then
    ⟨artist0, [], ⟨[], [], []⟩, st0, none, true⟩
  else if cfg.ignore_profiles.contains currentProfile then
    ⟨artist0, [], ⟨[], [], []⟩, st0, none, true⟩
  else
    match try_body env b cfg artist0.id wasMon needsChange
        ⟨artist0, [], ⟨[], [], []⟩, st0⟩ with
    | (r, ls) =>
      match safety_net env b wasMon ls with
      | ls' =>
        ⟨ls'.artist, ls'.albumsMem, ls'.acc, ls'.rs,
          (match r with | .ok _ => none | .error e => some e), false⟩

/-- The `for artist in artists:` loop.  Each artist comes with its own remote
environment; the run state is threaded through.  Because the per-artist block
is `try`/`finally` with no `except`, an exception propagates after the safety
net and aborts the remaining iterations. -/
def main_loop (b : Behaviour) (cfg : Cfg) : List (Artist × Env) → RunState → List Outcome
  | [], _ => []
  | (a, env) :: rest, st =>
    match (process_artist env b cfg a st).err with
    | some _ => [process_artist env b cfg a st]
    | none => process_artist env b cfg a st :: main_loop b cfg rest (process_artist env b cfg a st).st

end SingleSieve

namespace SingleSieve

/-- Holds when `rs'` extends `rs` by read-only traffic: no new `PUT`/`POST` entries in the
call log, and the remote store's monitored flag is unchanged. -/
def ReadOnlyFrom (rs rs' : RunState) : Prop :=
  rs'.calls.filter isWriteCall = rs.calls.filter isWriteCall ∧
    rs'.remoteMonitored = rs.remoteMonitored

end SingleSieve

/-! # Theorems -/

namespace SingleSieve

/-! ## Helper lemmas -/

theorem ampStepSpec_eq_replaceAmp (l : List Char) : ampStepSpec l = replaceAmp l := by
  induction l with
  | nil => rfl
  | cons c cs ih =>
    by_cases h : c = '&' <;> simp [ampStepSpec, replaceAmp, h] at ih ⊢ <;>
      simpa [ampStepSpec] using ih

theorem set_artist_monitored_snapshot (env : Env) (a : Artist) (m dry : Bool)
    (st : RunState) : ((set_artist_monitored env a m dry st).2.1).monitored = m := by
  unfold set_artist_monitored
  split
  · next h => simpa using h
  · split
    · rfl
    · dsimp only
      split <;> rfl

theorem missing_of_eq_nil_iff (rules : Rules) (sT : List (List Char)) (sR : List String)
    (ts : List Track) :
    missing_of rules sT sR ts = [] ↔
      ∀ t ∈ ts, titleOf t ≠ "" → trackMatches rules sT sR t = true := by
  unfold missing_of
  rw [List.filterMap_eq_nil_iff]
  refine forall_congr' fun t => forall_congr' fun _ => ?_
  by_cases h1 : titleOf t = ""
  · simp [h1]
  · by_cases h2 : trackMatches rules sT sR t = true <;> simp [h1, h2]

end SingleSieve

namespace SingleSieve

/-! ## Claim C8 -/

/-- C8: `normalise` applied to the title "A & B (Remix) [Live]" with lowercase,
strip_parentheses, strip_brackets and collapse_whitespace enabled (and
remove_punctuation disabled) returns exactly "a and b". -/
theorem c8_normalise_example :
    normalise "A & B (Remix) [Live]".data ⟨true, true, true, false, true⟩
      = "a and b".data := by
  rfl

/-! ## Claim C5 -/

/-- C5 counterexample: the claim says the punctuation-stripping step removes
exactly the non-alphanumeric, non-space characters and nothing else, so with
only `remove_punctuation` enabled the alphanumeric title "A" would be kept
verbatim.  The code's character class is `[^a-z0-9\s]`, which also removes
uppercase letters: the result is the empty string, while the spec-worded
filter (keep alphanumeric or space) keeps "A". -/
theorem c5_counterexample :
    normalise "A".data ⟨false, false, false, true, false⟩ = [] ∧
      "A".data.filter (fun ch => ch.isAlphanum || ch == ' ') = "A".data := by
  exact ⟨rfl, rfl⟩

/-- C5 amended: `normalise` applies the rule steps in exactly the claimed
fixed order — lowercase, unconditional `&`→`and`, strip parenthesised groups,
strip bracketed groups, punctuation strip, collapse whitespace, trim — but the
punctuation step removes every character that is not a lowercase ASCII letter,
not a digit and not whitespace (so uppercase letters are removed too when the
lowercase rule is disabled). -/
theorem c5_amended (title : List Char) (rules : Rules) :
    normalise title rules =
      pyStrip (condApp rules.collapse_whitespace collapseWs
        (condApp rules.remove_punctuation punctStep
          (condApp rules.strip_brackets (stripGroup '[' ']')
            (condApp rules.strip_parentheses (stripGroup '(' ')')
              (ampStepSpec (condApp rules.lowercase lowerStep title)))))) ∧
    ∀ (l : List Char) (ch : Char),
      ch ∈ punctStep l ↔
        ch ∈ l ∧ (('a' ≤ ch ∧ ch ≤ 'z') ∨ ('0' ≤ ch ∧ ch ≤ '9') ∨ isPyWs ch = true) := by
  constructor
  · rcases rules with ⟨lc, sp, sb, rp, cw⟩
    cases lc <;> cases sp <;> cases sb <;> cases rp <;> cases cw <;>
      simp [normalise, condApp, lowerStep, punctStep, ampStepSpec_eq_replaceAmp]
  · intro l ch
    simp only [punctStep, List.mem_filter, Bool.or_eq_true, Bool.and_eq_true,
      decide_eq_true_eq, or_assoc]

/-! ## Claim C4 -/

/-- C4 counterexample: the claim says a single is suppressed only if ALL of
its tracks match, and any unmatched track keeps the single.  This single has
one visible track with an empty title and no recording id; it matches neither
witness set (both are empty), yet the code's loop skips falsy titles
(`if not title: continue`), builds an empty `missing` list, and suppresses the
single. -/
theorem c4_counterexample :
    single_verdict ⟨false, false, false, false, false⟩ [] [] [⟨1, some "", none⟩]
        = Verdict.suppressed ∧
      trackMatches ⟨false, false, false, false, false⟩ [] [] ⟨1, some "", none⟩ = false := by
  exact ⟨rfl, rfl⟩

/-- C4 amended: a single with zero visible tracks is kept (the loop records
the "<no tracks visible>" diagnostic for it); otherwise tracks with an absent
or empty title are ignored entirely, the single is suppressed exactly when
every remaining (titled) track matches a witness set, and a kept single's
diagnostic list is the non-empty list of its unmatched titled tracks'
normalised titles. -/
theorem c4_amended (rules : Rules) (sT : List (List Char)) (sR : List String)
    (ts : List Track) :
    (ts = [] → single_verdict rules sT sR ts = Verdict.keptNoTracks) ∧
    (ts ≠ [] →
      (single_verdict rules sT sR ts = Verdict.suppressed ↔
        ∀ t ∈ ts, titleOf t ≠ "" → trackMatches rules sT sR t = true)) ∧
    (∀ ms, single_verdict rules sT sR ts = Verdict.keptMissing ms → ms ≠ []) := by
  refine ⟨fun h => by simp [single_verdict, h], fun h => ?_, fun ms hms => ?_⟩
  · rw [single_verdict, if_neg h]
    by_cases hm : missing_of rules sT sR ts = []
    · rw [if_pos hm]
      simp only [true_iff]
      exact (missing_of_eq_nil_iff rules sT sR ts).mp hm
    · rw [if_neg hm]
      constructor
      · intro hc
        cases hc
      · intro hall
        exact absurd ((missing_of_eq_nil_iff rules sT sR ts).mpr hall) hm
  · intro hnil
    rw [single_verdict] at hms
    by_cases h0 : ts = []
    · rw [if_pos h0] at hms
      cases hms
    · rw [if_neg h0] at hms
      by_cases hm : missing_of rules sT sR ts = []
      · rw [if_pos hm] at hms
        cases hms
      · rw [if_neg hm] at hms
        cases hms
        exact hm hnil

/-- C4 amended, witness: a concrete non-empty track list instantiating the
suppressed-iff-all-titled-tracks-match equivalence. -/
theorem c4_amended_witness :
    ([(⟨1, some "T", none⟩ : Track)] ≠ []) ∧
      (single_verdict ⟨false, false, false, false, false⟩ [] [] [⟨1, some "T", none⟩]
          = Verdict.suppressed ↔
        ∀ t ∈ [(⟨1, some "T", none⟩ : Track)], titleOf t ≠ "" →
          trackMatches ⟨false, false, false, false, false⟩ [] [] t = true) :=
  ⟨by decide, (c4_amended ⟨false, false, false, false, false⟩ [] []
    [⟨1, some "T", none⟩]).2.1 (by decide)⟩

end SingleSieve

namespace SingleSieve

/-! ## Claim C9 -/

/-- C9: when the snapshot's monitored flag already equals the requested value,
`set_artist_monitored` returns the snapshot unchanged with no remote call and
no state change (for any `dry_run`, in particular `false`); consequently a
second application with the same target is a no-op on the result of the
first. -/
theorem c9_set_artist_monitored_idempotent (env : Env) (a : Artist) (m dry : Bool)
    (st st' : RunState) :
    (a.monitored = m → set_artist_monitored env a m dry st = (.ok a, a, st)) ∧
    set_artist_monitored env (set_artist_monitored env a m dry st).2.1 m dry st'
      = (.ok (set_artist_monitored env a m dry st).2.1,
         (set_artist_monitored env a m dry st).2.1, st') := by
  have noop : ∀ (b : Artist) (s : RunState), b.monitored = m →
      set_artist_monitored env b m dry s = (.ok b, b, s) := by
    intro b s hb
    unfold set_artist_monitored
    rw [if_pos hb]
  exact ⟨noop a st,
    noop (set_artist_monitored env a m dry st).2.1 st'
      (set_artist_monitored_snapshot env a m dry st)⟩

/-- C9 witness: a monitored artist asked to stay monitored, with
`dry_run = false`: no call is made, the snapshot is returned unchanged, and a
second application is likewise a no-op. -/
theorem c9_witness :
    set_artist_monitored ⟨fun _ => false, false, [], []⟩ ⟨1, "Z", true, 1, "m"⟩ true false
        ⟨[], 0, true, 1⟩
      = (.ok ⟨1, "Z", true, 1, "m"⟩, ⟨1, "Z", true, 1, "m"⟩, ⟨[], 0, true, 1⟩) ∧
    set_artist_monitored ⟨fun _ => false, false, [], []⟩
        (set_artist_monitored ⟨fun _ => false, false, [], []⟩ ⟨1, "Z", true, 1, "m"⟩ true false
          ⟨[], 0, true, 1⟩).2.1 true false ⟨[], 0, true, 1⟩
      = (.ok (set_artist_monitored ⟨fun _ => false, false, [], []⟩ ⟨1, "Z", true, 1, "m"⟩
          true false ⟨[], 0, true, 1⟩).2.1,
         (set_artist_monitored ⟨fun _ => false, false, [], []⟩ ⟨1, "Z", true, 1, "m"⟩
          true false ⟨[], 0, true, 1⟩).2.1, ⟨[], 0, true, 1⟩) :=
  ⟨(c9_set_artist_monitored_idempotent ⟨fun _ => false, false, [], []⟩
      ⟨1, "Z", true, 1, "m"⟩ true false ⟨[], 0, true, 1⟩ ⟨[], 0, true, 1⟩).1 rfl,
   (c9_set_artist_monitored_idempotent ⟨fun _ => false, false, [], []⟩
      ⟨1, "Z", true, 1, "m"⟩ true false ⟨[], 0, true, 1⟩ ⟨[], 0, true, 1⟩).2⟩

end SingleSieve

namespace Listener

/-! ## Claim C10 -/

/-- C10: any webhook payload with eventType "ArtistAdd" and a present,
non-empty artist mbId gets the response status "queued", for every listener
state — in particular also when the identifier is already in the pending set
(the duplicate collapses silently; the response does not distinguish the two
cases). -/
theorem c10_webhook_always_queued (payload : WebhookPayload) (st : ListenerState)
    (mbid : String) (hev : payload.eventType = "ArtistAdd")
    (hmb : (payload.artist.getD ⟨none, none⟩).mbId = some mbid) (hne : mbid ≠ "") :
    (lidarr_webhook payload st).1 = WebhookStatus.queued := by
  simp [lidarr_webhook, hev, hmb, hne]

/-- C10 witness: an ArtistAdd event for "m" against a state whose queue
already holds "m" still answers queued. -/
theorem c10_witness :
    (lidarr_webhook ⟨"ArtistAdd", some ⟨some "m", some "Name"⟩⟩ ⟨["m"], true⟩).1
      = WebhookStatus.queued :=
  c10_webhook_always_queued ⟨"ArtistAdd", some ⟨some "m", some "Name"⟩⟩ ⟨["m"], true⟩
    "m" rfl rfl (by decide)

/-! ## Claim C2 -/

/-- C2 counterexample: the worker claims "m" (removing it from the pending
set), and a duplicate ArtistAdd event for "m" arriving during its processing
is NOT dropped: it is re-added to the queue, contradicting the claim that the
identifier is never re-added while being processed. -/
theorem c2_counterexample :
    worker_claim ⟨["m"], true⟩ = (some "m", ⟨[], true⟩) ∧
      (lidarr_webhook ⟨"ArtistAdd", some ⟨some "m", none⟩⟩ ⟨[], true⟩).2.queue = ["m"] := by
  exact ⟨rfl, rfl⟩

/-- C2 amended: a duplicate inbound event is dropped exactly while the
identifier is still pending in the queue set; once the worker has claimed it
(removed it from the set), an event for the same identifier is enqueued again
as a fresh pending entry — the code has no notion of "currently being
processed". -/
theorem c2_amended (st : ListenerState) (mbid : String) (nm : Option String)
    (hne : mbid ≠ "") :
    (mbid ∈ st.queue →
      (lidarr_webhook ⟨"ArtistAdd", some ⟨some mbid, nm⟩⟩ st).2.queue = st.queue) ∧
    (mbid ∉ st.queue →
      (lidarr_webhook ⟨"ArtistAdd", some ⟨some mbid, nm⟩⟩ st).2.queue
        = mbid :: st.queue) := by
  have hq : ∀ s : ListenerState, (ensure_worker s).queue = s.queue := by
    intro s
    unfold ensure_worker
    split <;> rfl
  constructor
  · intro hin
    simp [lidarr_webhook, hne, hq, enqueue, hin]
  · intro hout
    simp [lidarr_webhook, hne, hq, enqueue, hout]

/-- C2 amended, witness: with "m" pending it is dropped; after being claimed
(absent from the set) it is re-added. -/
theorem c2_amended_witness :
    ((lidarr_webhook ⟨"ArtistAdd", some ⟨some "m", none⟩⟩ ⟨["m"], true⟩).2.queue
        = ["m"]) ∧
      ((lidarr_webhook ⟨"ArtistAdd", some ⟨some "m", none⟩⟩ ⟨["x"], true⟩).2.queue
        = ["m", "x"]) :=
  ⟨(c2_amended ⟨["m"], true⟩ "m" none (by decide)).1 (by decide),
   (c2_amended ⟨["x"], true⟩ "m" none (by decide)).2 (by decide)⟩

end Listener

namespace SingleSieve

/-! ## Claim C7 -/

/-- C7: with `skip_unmonitored_artists = true`, an artist whose monitored flag
is false at snapshot time is skipped before the `try` body: the reconciliation
performs no remote call at all (in particular zero PUT or POST), leaves the
run state untouched and reports the artist as skipped. -/
theorem c7_skip_unmonitored_no_writes (env : Env) (b : Behaviour) (cfg : Cfg)
    (a : Artist) (st0 : RunState) (hskip : b.skip_unmonitored = true)
    (hmon : a.monitored = false) :
    process_artist env b cfg a st0 = ⟨a, [], ⟨[], [], []⟩, st0, none, true⟩ := by
  unfold process_artist
  simp [hskip, hmon]

/-- C7 witness: a concrete unmonitored artist under `skip_unmonitored`. -/
theorem c7_witness :
    process_artist ⟨fun _ => false, false, [], []⟩ ⟨false, true, true, true, false⟩
        ⟨2, [(1, "Old")], [], ⟨false, false, false, false, false⟩⟩
        ⟨7, "X", false, 1, "m"⟩ ⟨[], 0, false, 1⟩
      = ⟨⟨7, "X", false, 1, "m"⟩, [], ⟨[], [], []⟩, ⟨[], 0, false, 1⟩, none, true⟩ :=
  c7_skip_unmonitored_no_writes ⟨fun _ => false, false, [], []⟩
    ⟨false, true, true, true, false⟩ ⟨2, [(1, "Old")], [], ⟨false, false, false, false, false⟩⟩
    ⟨7, "X", false, 1, "m"⟩ ⟨[], 0, false, 1⟩ rfl rfl

/-! ## Claim C3 -/

/-- C3 (code bug): an originally monitored artist (`wasMonitored = true`) with
`dry_run = false` needs a profile change; the temporary unmonitor PUT (call 0)
succeeds, the refresh completes, and the re-monitor PUT (call 5) fails.
Because `set_artist_monitored` mutates the snapshot object before the PUT, the
`finally` safety net sees the local flag already `true`, skips the restoring
write, and the remote store is left with `monitored = false` — the claim's
required final remote state is `true`. -/
theorem c3_remonitor_failure_leaves_unmonitored :
    (⟨7, "X", true, 1, "mb"⟩ : Artist).monitored = true ∧
    (⟨false, false, true, false, false⟩ : Behaviour).dry_run = false ∧
    (process_artist ⟨fun n => n == 5, false, [], []⟩ ⟨false, false, true, false, false⟩
        ⟨2, [(1, "Old"), (2, "New")], [], ⟨false, false, false, false, false⟩⟩
        ⟨7, "X", true, 1, "mb"⟩ ⟨[], 0, true, 1⟩).err = some RErr.requestFailed ∧
    (process_artist ⟨fun n => n == 5, false, [], []⟩ ⟨false, false, true, false, false⟩
        ⟨2, [(1, "Old"), (2, "New")], [], ⟨false, false, false, false, false⟩⟩
        ⟨7, "X", true, 1, "mb"⟩ ⟨[], 0, true, 1⟩).artist.monitored = true ∧
    (process_artist ⟨fun n => n == 5, false, [], []⟩ ⟨false, false, true, false, false⟩
        ⟨2, [(1, "Old"), (2, "New")], [], ⟨false, false, false, false, false⟩⟩
        ⟨7, "X", true, 1, "mb"⟩ ⟨[], 0, true, 1⟩).st.remoteMonitored = false := by
  exact ⟨rfl, rfl, rfl, rfl, rfl⟩

/-! ## Claim C1 -/

/-- C1 counterexample: two processable monitored artists; every remote call of
the first artist's environment fails, the second artist's environment is
healthy (shown by the last conjunct).  The run produces a single outcome — the
failing artist's, with its error recorded after its safety net ran — and the
second artist is never processed, contradicting the claim that the loop
continues with every remaining artist. -/
theorem c1_counterexample :
    (main_loop ⟨false, false, true, false, false⟩
        ⟨2, [(1, "Old"), (2, "New")], [], ⟨false, false, false, false, false⟩⟩
        [(⟨7, "X", true, 1, "m1"⟩, ⟨fun _ => true, false, [], []⟩),
         (⟨8, "Y", true, 1, "m2"⟩, ⟨fun _ => false, false, [], []⟩)]
        ⟨[], 0, true, 1⟩).length = 1 ∧
    (main_loop ⟨false, false, true, false, false⟩
        ⟨2, [(1, "Old"), (2, "New")], [], ⟨false, false, false, false, false⟩⟩
        [(⟨7, "X", true, 1, "m1"⟩, ⟨fun _ => true, false, [], []⟩),
         (⟨8, "Y", true, 1, "m2"⟩, ⟨fun _ => false, false, [], []⟩)]
        ⟨[], 0, true, 1⟩).map (fun o => o.err.isSome) = [true] ∧
    (process_artist ⟨fun _ => false, false, [], []⟩ ⟨false, false, true, false, false⟩
        ⟨2, [(1, "Old"), (2, "New")], [], ⟨false, false, false, false, false⟩⟩
        ⟨8, "Y", true, 1, "m2"⟩ ⟨[], 0, true, 1⟩).err = none := by
  exact ⟨rfl, rfl, rfl⟩

/-- C1 amended: a failure inside one artist's reconciliation still runs that
artist's safety-net restoration (the `finally` block inside `process_artist`),
but since the per-artist block has no `except` clause, the exception then
propagates and the loop stops: none of the remaining artists is processed. -/
theorem c1_amended (b : Behaviour) (cfg : Cfg) (a : Artist) (env : Env)
    (rest : List (Artist × Env)) (st : RunState) (e : RErr)
    (h : (process_artist env b cfg a st).err = some e) :
    main_loop b cfg ((a, env) :: rest) st = [process_artist env b cfg a st] := by
  unfold main_loop
  rw [h]

/-- C1 amended, witness: the failing artist of the counterexample scenario,
followed by a non-empty tail that is dropped. -/
theorem c1_amended_witness :
    main_loop ⟨false, false, true, false, false⟩
        ⟨2, [(1, "Old"), (2, "New")], [], ⟨false, false, false, false, false⟩⟩
        [(⟨7, "X", true, 1, "m1"⟩, ⟨fun _ => true, false, [], []⟩),
         (⟨9, "Z", true, 1, "m3"⟩, ⟨fun _ => false, false, [], []⟩)]
        ⟨[], 0, true, 1⟩
      = [process_artist ⟨fun _ => true, false, [], []⟩ ⟨false, false, true, false, false⟩
          ⟨2, [(1, "Old"), (2, "New")], [], ⟨false, false, false, false, false⟩⟩
          ⟨7, "X", true, 1, "m1"⟩ ⟨[], 0, true, 1⟩] :=
  c1_amended ⟨false, false, true, false, false⟩
    ⟨2, [(1, "Old"), (2, "New")], [], ⟨false, false, false, false, false⟩⟩
    ⟨7, "X", true, 1, "m1"⟩ ⟨fun _ => true, false, [], []⟩
    [(⟨9, "Z", true, 1, "m3"⟩, ⟨fun _ => false, false, [], []⟩)]
    ⟨[], 0, true, 1⟩ RErr.requestFailed rfl

end SingleSieve

namespace SingleSieve

/-! ## Claim C6: helper lemmas -/

theorem readOnlyFrom_refl (rs : RunState) : ReadOnlyFrom rs rs := ⟨rfl, rfl⟩

theorem readOnlyFrom_trans {r1 r2 r3 : RunState} (h12 : ReadOnlyFrom r1 r2)
    (h23 : ReadOnlyFrom r2 r3) : ReadOnlyFrom r1 r3 :=
  ⟨h23.1.trans h12.1, h23.2.trans h12.2⟩

theorem rcall_read (env : Env) (c : RCall) (st : RunState) (h : isWriteCall c = false) :
    ReadOnlyFrom st (rcall env c st).2 := by
  unfold rcall
  dsimp only
  split
  · exact ⟨by simp [List.filter_append, h], rfl⟩
  · cases c with
    | putArtist a => simp [isWriteCall] at h
    | postCommand nm i => simp [isWriteCall] at h
    | putAlbum a => simp [isWriteCall] at h
    | getCommand i => exact ⟨by simp [applyCall, List.filter_append, isWriteCall], rfl⟩
    | getTracks i => exact ⟨by simp [applyCall, List.filter_append, isWriteCall], rfl⟩
    | getAlbums i => exact ⟨by simp [applyCall, List.filter_append, isWriteCall], rfl⟩
    | getAlbum i => exact ⟨by simp [applyCall, List.filter_append, isWriteCall], rfl⟩

theorem rcallL_read (env : Env) (c : RCall) (ls : LState) (h : isWriteCall c = false) :
    ReadOnlyFrom ls.rs (rcallL env c ls).2.rs := by
  have he : rcallL env c ls
      = ((rcall env c ls.rs).1, { ls with rs := (rcall env c ls.rs).2 }) := rfl
  rw [he]
  exact rcall_read env c ls.rs h

theorem setMonitoredStep_dry_eq (env : Env) (m : Bool) (ls : LState) :
    setMonitoredStep env m true ls
      = (.ok (), { ls with artist := (set_artist_monitored env ls.artist m true ls.rs).2.1 }) := by
  by_cases h : ls.artist.monitored = m <;>
    simp [setMonitoredStep, set_artist_monitored, h]

theorem suppress_loop_dry (env : Env) (b : Behaviour) (rules : Rules)
    (sT : List (List Char)) (sR : List String) (tracks : List Track)
    (hdry : b.dry_run = true) :
    ∀ (ss : List Album) (ls : LState),
      (suppress_loop env b rules sT sR tracks ss ls).1 = .ok () ∧
        (suppress_loop env b rules sT sR tracks ss ls).2.rs = ls.rs := by
  intro ss
  induction ss with
  | nil => intro ls; exact ⟨rfl, rfl⟩
  | cons s rest ih =>
    intro ls
    unfold suppress_loop
    rcases hv : single_verdict rules sT sR (tracks.filter (fun t => t.albumId == s.id)) with
      _ | _ | ms <;> dsimp only
    · exact ih _
    · rw [hdry]
      split
      · exact ih _
      · exact ih _
    · exact ih _

theorem seqE_pres (step k : LState → Except RErr Unit × LState)
    (hs : ∀ ls : LState, ReadOnlyFrom ls.rs (step ls).2.rs)
    (hk : ∀ ls : LState, ReadOnlyFrom ls.rs (k ls).2.rs) :
    ∀ ls : LState, ReadOnlyFrom ls.rs (seqE step k ls).2.rs := by
  intro ls
  unfold seqE
  rcases hstep : step ls with ⟨r, ls'⟩
  cases r with
  | error e =>
    have := hs ls
    rw [hstep] at this
    exact this
  | ok _ =>
    have h1 := hs ls
    rw [hstep] at h1
    exact readOnlyFrom_trans h1 (hk ls')

theorem condStepOn_pres (p : LState → Bool) (step : LState → Except RErr Unit × LState)
    (hs : ∀ ls : LState, p ls = true → ReadOnlyFrom ls.rs (step ls).2.rs) :
    ∀ ls : LState, ReadOnlyFrom ls.rs (condStepOn p step ls).2.rs := by
  intro ls
  unfold condStepOn
  by_cases hp : p ls = true
  · rw [hp]
    simpa using hs ls hp
  · rw [Bool.not_eq_true] at hp
    rw [hp]
    simpa using readOnlyFrom_refl ls.rs

theorem try_body_dry (env : Env) (b : Behaviour) (cfg : Cfg) (aid : Nat)
    (w n : Bool) (hdry : b.dry_run = true) :
    ∀ ls : LState, ReadOnlyFrom ls.rs ((try_body env b cfg aid w n ls).2.rs) := by
  unfold try_body
  refine seqE_pres _ _ (condStepOn_pres _ _ fun ls _ => ?_)
    (seqE_pres _ _ (condStepOn_pres _ _ fun ls _ => ?_)
      (seqE_pres _ _ (condStepOn_pres _ _ fun ls hg => ?_)
        (seqE_pres _ _ (fun ls => rcallL_read env _ ls rfl)
          (seqE_pres _ _ (fun ls => rcallL_read env _ ls rfl)
            (seqE_pres _ _ (fun ls => ?_)
              (condStepOn_pres _ _ fun ls _ =>
                seqE_pres _ _ (fun ls => ?_)
                  (condStepOn_pres _ _ fun ls hg => ?_) ls))))))
  · rw [hdry, setMonitoredStep_dry_eq]
    exact readOnlyFrom_refl ls.rs
  · rw [hdry]
    have : profileStep env cfg.target_profile_id true ls
        = (.ok (), { ls with artist := { ls.artist with metadataProfileId :=
            cfg.target_profile_id } }) := rfl
    rw [this]
    exact readOnlyFrom_refl ls.rs
  · rw [hdry] at hg
    simp at hg
  · have h := (suppress_loop_dry env b cfg.rules
      (seen_titles cfg.rules (monIdsOf env.albums) env.tracks)
      (seen_recordings (monIdsOf env.albums) env.tracks)
      env.tracks hdry (singlesOf env.albums) { ls with albumsMem := env.albums }).2
    rw [h]
    exact readOnlyFrom_refl ls.rs
  · rw [hdry, setMonitoredStep_dry_eq]
    exact readOnlyFrom_refl ls.rs
  · rw [hdry] at hg
    simp at hg

end SingleSieve

namespace SingleSieve

/-! ## Claim C6 -/

/-- C6 counterexample: a dry run whose single "S" is a duplicate of the
monitored album "A".  The suppression step fires (suppressed list is ["S"])
and, per the claim, should have no remote call but update the in-memory
snapshot as if the unmonitor had happened.  The code's dry-run branch is a
log-only no-op: the outcome shows the in-memory albums snapshot still carrying
`monitored := true` for "S", and the call log holds only the two GETs — so
the "still updates the corresponding in-memory snapshot" half of the claim is
false for the single-album unmonitor step. -/
theorem c6_counterexample :
    process_artist
        ⟨fun _ => false, false,
          [⟨1, some "Song", some "R1"⟩, ⟨2, some "Song", some "R1"⟩],
          [⟨1, "S", "Single", true⟩, ⟨2, "A", "Album", true⟩]⟩
        ⟨true, false, true, false, false⟩
        ⟨2, [(2, "New")], [], ⟨false, false, false, false, false⟩⟩
        ⟨7, "X", true, 2, "m"⟩ ⟨[], 0, true, 2⟩
      = ⟨⟨7, "X", true, 2, "m"⟩,
         [⟨1, "S", "Single", true⟩, ⟨2, "A", "Album", true⟩],
         ⟨["S"], [], []⟩,
         ⟨[.getTracks 7, .getAlbums 7], 2, true, 2⟩,
         none, false⟩ := by
  rfl

/-- C6 amended: when `dry_run` is true, the whole per-artist reconciliation
performs no remote-mutating call (no new PUT or POST in the call log) and
leaves the remote monitored state untouched; the artist-level steps do update
the in-memory artist snapshot, but the single-album unmonitor is replaced by a
log-only no-op with no snapshot update, and the safety-net restore is skipped
entirely. -/
theorem c6_amended (env : Env) (b : Behaviour) (cfg : Cfg) (a : Artist)
    (st0 : RunState) (hdry : b.dry_run = true) :
    ReadOnlyFrom st0 (process_artist env b cfg a st0).st := by
  have hsafe : ∀ (w : Bool) (ls : LState), safety_net env b w ls = ls := by
    intro w ls
    unfold safety_net
    rw [hdry]
    simp
  unfold process_artist
  dsimp only
  split
  · exact readOnlyFrom_refl st0
  · split
    · exact readOnlyFrom_refl st0
    · rcases htb : try_body env b cfg a.id a.monitored
          (a.metadataProfileId != cfg.target_profile_id)
          ⟨a, [], ⟨[], [], []⟩, st0⟩ with ⟨r, ls⟩
      have hb := try_body_dry env b cfg a.id a.monitored
        (a.metadataProfileId != cfg.target_profile_id) hdry ⟨a, [], ⟨[], [], []⟩, st0⟩
      rw [htb] at hb
      rw [hsafe]
      exact hb

/-- C6 amended, witness: the concrete dry run of the counterexample input —
read-only traffic only. -/
theorem c6_amended_witness :
    ReadOnlyFrom ⟨[], 0, true, 2⟩
      (process_artist
        ⟨fun _ => false, false,
          [⟨1, some "Tune", some "R9"⟩, ⟨2, some "Tune", some "R9"⟩],
          [⟨1, "S2", "Single", true⟩, ⟨2, "B", "Album", true⟩]⟩
        ⟨true, true, true, false, true⟩
        ⟨2, [(2, "New")], [], ⟨true, false, false, false, true⟩⟩
        ⟨7, "X", true, 2, "m"⟩ ⟨[], 0, true, 2⟩).st :=
  c6_amended
    ⟨fun _ => false, false,
      [⟨1, some "Tune", some "R9"⟩, ⟨2, some "Tune", some "R9"⟩],
      [⟨1, "S2", "Single", true⟩, ⟨2, "B", "Album", true⟩]⟩
    ⟨true, true, true, false, true⟩
    ⟨2, [(2, "New")], [], ⟨true, false, false, false, true⟩⟩
    ⟨7, "X", true, 2, "m"⟩ ⟨[], 0, true, 2⟩ rfl

end SingleSieve
